import Mathlib

/-!
Verification of the link quarantine/restore automation of
`chapters/batteries-included/event-automation.py`.

The Python program is shallowly embedded: strings are Lean `String`s,
Python's substring test (`x in s`), `str.lower` and `str.strip` are
executable functions on `List Char` / `String`, the interface-token
regular expression `^[A-Za-z][A-Za-z0-9 slash dash]+` (slash dash written out to avoid comment tokens) is an explicit
first-char/greedy-run matcher, the network device is a small explicit
state (administrative state plus description) driven by the exact
command batches the program sends, and the Prefect flows are embedded
as functions from an environment of external-call results to the list
of external actions they perform, in program order.
-/

namespace EventAutomation

/-- ASCII lowercasing of one character, as Python `str.lower` acts on the
ASCII range (every string this program manipulates is ASCII). -/
def lowerChar (c : Char) : Char :=
  if 'A' ≤ c ∧ c ≤ 'Z' then Char.ofNat (c.toNat + 32) else c

/-- Python `str.lower` (ASCII fragment). -/
def lowerStr (s : String) : String := ⟨s.data.map lowerChar⟩

/-- Python's substring test `needle in hay`. -/
def pyIn (needle hay : String) : Bool := decide (needle.data <:+: hay.data)

/-- Characters stripped by Python `str.strip()` (ASCII whitespace). -/
def isSpaceChar (c : Char) : Bool :=
  c == ' ' || c == '\t' || c == '\n' || c == '\r' ||
    c == Char.ofNat 11 || c == Char.ofNat 12

/-- The character class `[A-Za-z]` of the interface-token regex. -/
def isAlphaChar (c : Char) : Bool :=
  ('A' ≤ c && c ≤ 'Z') || ('a' ≤ c && c ≤ 'z')

/-- The character class `[A-Za-z0-9 slash dash]` of the interface-token regex. -/
def isTokenChar (c : Char) : Bool :=
  isAlphaChar c || ('0' ≤ c && c ≤ '9') || c == '/' || c == '-'

/-- Python `str.strip()`: drop leading and trailing whitespace. -/
def pyStrip (l : List Char) : List Char :=
  (l.dropWhile isSpaceChar).rdropWhile isSpaceChar

/-- Anchored greedy match of `IFACE_TOKEN_RE, letter then token run`:
one leading letter followed by a nonempty maximal run of token
characters; `none` when the regex does not match at the start. -/
def ifaceTokenMatch : List Char → Option (List Char)
  | [] => none
  | c :: rest =>
    if isAlphaChar c then
      let run := rest.takeWhile isTokenChar
      if run = [] then none else some (c :: run)
    else none

/-- `canon_iface` (source lines 19-28): strip the input, return the
matched leading interface token, or the stripped input if the regex
does not match. -/
def canon_iface (s : String) : String :=
  match ifaceTokenMatch (pyStrip s.data) with
  | some tok => ⟨tok⟩
  | none => ⟨pyStrip s.data⟩

/-- Replace every `/` by `-`, as Python `str.replace("/", "-")`. -/
def replaceSlash (s : String) : String :=
  ⟨s.data.map (fun c => if c = '/' then '-' else c)⟩

/-- `_limit_name` (source lines 31-32): the per-link concurrency-limit
name `link:device:interface`, slashes replaced, lowercased. -/
def _limit_name (device interface : String) : String :=
  lowerStr (replaceSlash ("link:" ++ device ++ ":" ++ interface))

/- ### List lemmas for strip/match idempotence -/

theorem dropWhile_of_append_self {α : Type} {p : α → Bool} {x m t : List α}
    (hm : List.dropWhile p m = m) (hx : m = x ++ t) :
    List.dropWhile p x = x := by
  cases x with
  | nil => rfl
  | cons c x' =>
    subst hx
    rw [List.cons_append, List.dropWhile_cons] at hm
    by_cases h : p c
    · rw [if_pos h] at hm
      have h1 := congrArg List.length hm
      have h2 := (List.dropWhile_sublist (l := x' ++ t) p).length_le
      simp [List.length_append] at h1 h2
      omega
    · rw [List.dropWhile_cons, if_neg h]

theorem pyStrip_idem (l : List Char) : pyStrip (pyStrip l) = pyStrip l := by
  unfold pyStrip
  obtain ⟨t, ht⟩ := List.rdropWhile_prefix isSpaceChar (l.dropWhile isSpaceChar)
  rw [dropWhile_of_append_self (List.dropWhile_idempotent _ _) ht.symm,
    List.rdropWhile_idempotent]

theorem isSpaceChar_cases {c : Char} (h : isSpaceChar c = true) :
    c = ' ' ∨ c = '\t' ∨ c = '\n' ∨ c = '\r' ∨ c = Char.ofNat 11 ∨ c = Char.ofNat 12 := by
  simpa [isSpaceChar, or_assoc] using h

theorem isTokenChar_not_space {c : Char} (h : isTokenChar c = true) :
    isSpaceChar c = false := by
  cases hs : isSpaceChar c with
  | false => rfl
  | true =>
    rcases isSpaceChar_cases hs with h1 | h1 | h1 | h1 | h1 | h1 <;>
      (subst h1; exact absurd h (by decide))

theorem isAlphaChar_token {c : Char} (h : isAlphaChar c = true) :
    isTokenChar c = true := by
  simp [isTokenChar, h]

theorem pyStrip_eq_self {l : List Char} (h : ∀ c ∈ l, isSpaceChar c = false) :
    pyStrip l = l := by
  unfold pyStrip
  have h1 : List.dropWhile isSpaceChar l = l := by
    cases l with
    | nil => rfl
    | cons c t =>
      rw [List.dropWhile_cons, if_neg]
      simp [h c (List.mem_cons_self c t)]
  rw [h1, List.rdropWhile_eq_self_iff]
  intro hl
  simp [h _ (List.getLast_mem hl)]

theorem ifaceTokenMatch_inv {t tok : List Char} (h : ifaceTokenMatch t = some tok) :
    ∃ c rest, t = c :: rest ∧ isAlphaChar c = true ∧
      rest.takeWhile isTokenChar ≠ [] ∧ tok = c :: rest.takeWhile isTokenChar := by
  cases t with
  | nil => simp [ifaceTokenMatch] at h
  | cons c rest =>
    by_cases ha : isAlphaChar c = true
    · by_cases hr : rest.takeWhile isTokenChar = []
      · simp [ifaceTokenMatch, ha, hr] at h
      · refine ⟨c, rest, rfl, ha, hr, ?_⟩
        simp only [ifaceTokenMatch, ha, if_true, if_neg hr] at h
        injection h with h2
        exact h2.symm
    · simp [ifaceTokenMatch, ha] at h

/-- A matched interface token has no whitespace and is made of token
characters, so canonicalizing it again returns it unchanged. -/
theorem canon_iface_of_match {t tok : List Char} (h : ifaceTokenMatch t = some tok) :
    canon_iface ⟨tok⟩ = ⟨tok⟩ := by
  obtain ⟨c, rest, _, ha, hr, htok⟩ := ifaceTokenMatch_inv h
  have htokchars : ∀ x ∈ tok, isTokenChar x = true := by
    intro x hx
    rw [htok] at hx
    rcases List.mem_cons.mp hx with h1 | h1
    · subst h1; exact isAlphaChar_token ha
    · exact List.mem_takeWhile_imp h1
  have hstrip : pyStrip tok = tok :=
    pyStrip_eq_self (fun x hx => isTokenChar_not_space (htokchars x hx))
  have hmatch : ifaceTokenMatch tok = some tok := by
    rw [htok]
    have hrun : (rest.takeWhile isTokenChar).takeWhile isTokenChar
        = rest.takeWhile isTokenChar := by
      rw [List.takeWhile_eq_self_iff]
      intro x hx
      exact List.mem_takeWhile_imp hx
    simp only [ifaceTokenMatch, ha, if_true, hrun, if_neg hr]
  show canon_iface ⟨tok⟩ = ⟨tok⟩
  unfold canon_iface
  simp only [hstrip, hmatch]

theorem canon_iface_idem (s : String) :
    canon_iface (canon_iface s) = canon_iface s := by
  unfold canon_iface
  cases h : ifaceTokenMatch (pyStrip s.data) with
  | some tok =>
    have := canon_iface_of_match h
    unfold canon_iface at this
    exact this
  | none =>
    show canon_iface ⟨pyStrip s.data⟩ = ⟨pyStrip s.data⟩
    unfold canon_iface
    simp only [pyStrip_idem, h]

/-- Claim C8: interface canonicalization is idempotent, and the example
`canon_iface "Ethernet2 (connected)" = "Ethernet2"` holds. -/
theorem canon_iface_idem_and_example :
    (∀ s : String, canon_iface (canon_iface s) = canon_iface s) ∧
    canon_iface "Ethernet2 (connected)" = "Ethernet2" :=
  ⟨canon_iface_idem, by decide⟩

/- ### Substring (infix) splitting over concatenation -/

theorem prefix_append_split {α : Type} {n a b : List α} (h : n <+: a ++ b) :
    n <+: a ∨ (a <+: n ∧ n.drop a.length <+: b) := by
  rcases le_or_lt n.length a.length with hle | hlt
  · exact Or.inl ((List.isPrefix_append_of_length hle).mp h)
  · right
    have hn : n = (a ++ b).take n.length := List.prefix_iff_eq_take.mp h
    rw [List.take_append_eq_append_take, List.take_of_length_le (by omega)] at hn
    constructor
    · rw [hn]; exact List.prefix_append a _
    · rw [hn, List.drop_left]
      exact List.take_prefix _ b

theorem infix_append_split {α : Type} {n a b : List α} (h : n <:+: a ++ b) :
    n <:+: a ∨ n <:+: b ∨
      ∃ k, 0 < k ∧ k < n.length ∧ n.take k <:+ a ∧ n.drop k <+: b := by
  induction a with
  | nil => rw [List.nil_append] at h; exact Or.inr (Or.inl h)
  | cons c a' ih =>
    rw [List.cons_append, List.infix_cons_iff] at h
    rcases h with hp | hi
    · rw [← List.cons_append] at hp
      rcases prefix_append_split hp with h1 | ⟨h2, h3⟩
      · exact Or.inl h1.isInfix
      · rcases Nat.lt_or_ge (c :: a').length n.length with hlt | hge
        · refine Or.inr (Or.inr ⟨(c :: a').length, by simp, hlt, ?_, h3⟩)
          rw [(List.prefix_iff_eq_take.mp h2).symm]
        · have : n = c :: a' := (h2.eq_of_length (Nat.le_antisymm h2.length_le hge)).symm
          exact Or.inl (this ▸ List.infix_refl n)
    · rcases ih hi with h1 | h2 | ⟨k, hk1, hk2, hk3, hk4⟩
      · exact Or.inl (List.infix_cons_iff.mpr (Or.inr h1))
      · exact Or.inr (Or.inl h2)
      · exact Or.inr (Or.inr ⟨k, hk1, hk2, List.suffix_cons_iff.mpr (Or.inr hk3), hk4⟩)

theorem not_infix_of_append {α : Type} {n a b : List α}
    (ha : ¬ n <:+: a) (hb : ¬ n <:+: b)
    (hs : ∀ k, 0 < k → k < n.length → ¬ (n.take k <:+ a ∧ n.drop k <+: b)) :
    ¬ n <:+: a ++ b := by
  intro h
  rcases infix_append_split h with h1 | h2 | ⟨k, hk1, hk2, hk3, hk4⟩
  · exact ha h1
  · exact hb h2
  · exact hs k hk1 hk2 ⟨hk3, hk4⟩

theorem infix_of_append_right {α : Type} {n b : List α} (a : List α)
    (h : n <:+: b) : n <:+: a ++ b :=
  h.trans (List.suffix_append a b).isInfix

theorem not_infix_append_of_no_take {α : Type} [DecidableEq α] {n a b : List α}
    (ha : ¬ n <:+: a) (hb : ¬ n <:+: b)
    (hs : ∀ k < n.length, 0 < k → ¬ n.take k <:+ a) :
    ¬ n <:+: a ++ b :=
  not_infix_of_append ha hb (fun k hk1 hk2 hk3 => hs k hk2 hk1 hk3.1)

theorem not_infix_append_of_no_drop {α : Type} [DecidableEq α] {n a b : List α}
    (ha : ¬ n <:+: a) (hb : ¬ n <:+: b)
    (hs : ∀ k < n.length, 0 < k → ¬ n.drop k <+: b) :
    ¬ n <:+: a ++ b :=
  not_infix_of_append ha hb (fun k hk1 hk2 hk3 => hs k hk2 hk1 hk3.2)

/- ### Device model: one interface of an EOS-style switch -/

/-- Sentinel description written by the quarantine mutator
(source line 331). -/
def sentinelTag : String := "QUARANTINED_BY_PREFECT"

/-- Modelled per-interface device state: administrative shutdown flag and
the configured description. -/
structure IfaceState where
  adminDown : Bool
  descr : String
deriving DecidableEq, Repr

/-- Device interpretation of one configuration line of a
`send_config_set` batch, for the selected interface. -/
def applyConfigCmd (st : IfaceState) (cmd : String) : IfaceState :=
  if cmd = "shutdown" then { st with adminDown := true }
  else if cmd = "no shutdown" then { st with adminDown := false }
  else if "description ".data.isPrefixOf cmd.data then { st with descr := ⟨cmd.data.drop 12⟩ }
  else st

/-- Netmiko `send_config_set`: the device applies the batch in order. -/
def send_config_set (st : IfaceState) (cmds : List String) : IfaceState :=
  cmds.foldl applyConfigCmd st

/-- The exact batch pushed by `quarantine_side` (source lines 327-333). -/
def quarantineCmds (interface : String) : List String :=
  ["interface " ++ canon_iface interface, "shutdown", "description " ++ sentinelTag]

/-- The exact batch pushed by `restore_side` (source lines 348-355); the
description-reset line is commented out in the source. -/
def restoreCmds (interface : String) : List String :=
  ["interface " ++ canon_iface interface, "no shutdown", "no shutdown"]

/-- `quarantine_side` (source lines 320-339) as a device-state transformer:
one `send_config_set` batch (config save is best-effort and does not
change the modelled state). -/
def quarantine_side (device interface : String) (st : IfaceState) : IfaceState :=
  send_config_set st (quarantineCmds interface)

/-- `restore_side` (source lines 342-361) as a device-state transformer. -/
def restore_side (device interface : String) (st : IfaceState) : IfaceState :=
  send_config_set st (restoreCmds interface)

/-- EOS-style rendering of `show running-config interface <name>`: a
`shutdown` line appears exactly when the interface is administratively
down (the enabled default is not rendered), and a `description` line
appears when a description is set. -/
def showRunningConfig (interface : String) (st : IfaceState) : String :=
  "interface " ++ interface ++
    ("\n" ++ (if st.descr = "" then "" else "   description " ++ st.descr ++ "\n")
      ++ (if st.adminDown then "   shutdown\n" else ""))

/-- EOS-style rendering of `show interface <name>`: the first line names
the administrative state, a `Description:` line follows when set. -/
def showInterface (interface : String) (st : IfaceState) : String :=
  interface ++
    (" is " ++ (if st.adminDown then "administratively down" else "up")
      ++ ", line protocol is " ++ (if st.adminDown then "down (disabled)" else "up (connected)")
      ++ "\n"
      ++ (if st.descr = "" then "" else "  Description: " ++ st.descr ++ "\n"))

/-- The decision core of `is_already_quarantined` (source lines 191-212)
on the two command outputs: config match first, then the
`show interface` fallback. -/
def is_already_quarantined_strings (cfg out : String) : Bool :=
  (pyIn "shutdown" (lowerStr cfg) && pyIn (lowerStr "quarantined_by_prefect") (lowerStr cfg))
  || ((pyIn "admin state is down" (lowerStr out)
        || pyIn "administratively down" (lowerStr out)
        || pyIn "is administratively down" (lowerStr out))
      && pyIn "quarantined_by_prefect" (lowerStr out))

/-- `is_already_quarantined` (source lines 180-212): canonicalize the
interface, read the two command outputs from the modelled device, and
decide. -/
def is_already_quarantined (device interface : String) (st : IfaceState) : Bool :=
  is_already_quarantined_strings (showRunningConfig (canon_iface interface) st)
    (showInterface (canon_iface interface) st)

theorem iaq_strings_spec (cfg out : String) :
    is_already_quarantined_strings cfg out = true ↔
      (("shutdown".data <:+: (lowerStr cfg).data ∧
          "quarantined_by_prefect".data <:+: (lowerStr cfg).data) ∨
        (("admin state is down".data <:+: (lowerStr out).data ∨
            "administratively down".data <:+: (lowerStr out).data ∨
            "is administratively down".data <:+: (lowerStr out).data) ∧
          "quarantined_by_prefect".data <:+: (lowerStr out).data)) := by
  have htag : lowerStr "quarantined_by_prefect" = "quarantined_by_prefect" := by decide
  simp [is_already_quarantined_strings, pyIn, htag, Bool.and_eq_true, Bool.or_eq_true,
    decide_eq_true_iff, or_assoc]

/-- Claim C2: the quarantine check is true iff the running config
contains both the shutdown directive and the sentinel tag
(case-insensitively), or the interface-status text contains an
admin-down phrase together with the sentinel tag; otherwise false. -/
theorem is_already_quarantined_strings_iff (cfg out : String) :
    is_already_quarantined_strings cfg out = true ↔
      (("shutdown".data <:+: (lowerStr cfg).data ∧
          "quarantined_by_prefect".data <:+: (lowerStr cfg).data) ∨
        (("admin state is down".data <:+: (lowerStr out).data ∨
            "administratively down".data <:+: (lowerStr out).data ∨
            "is administratively down".data <:+: (lowerStr out).data) ∧
          "quarantined_by_prefect".data <:+: (lowerStr out).data)) :=
  iaq_strings_spec cfg out

theorem iaq_strings_true_of_cfg {cfg out : String}
    (h1 : "shutdown".data <:+: (lowerStr cfg).data)
    (h2 : "quarantined_by_prefect".data <:+: (lowerStr cfg).data) :
    is_already_quarantined_strings cfg out = true :=
  (iaq_strings_spec cfg out).mpr (Or.inl ⟨h1, h2⟩)

theorem iaq_strings_false {cfg out : String}
    (h1 : ¬ "shutdown".data <:+: (lowerStr cfg).data)
    (hp1 : ¬ "admin state is down".data <:+: (lowerStr out).data)
    (hp2 : ¬ "administratively down".data <:+: (lowerStr out).data) :
    is_already_quarantined_strings cfg out = false := by
  cases hb : is_already_quarantined_strings cfg out with
  | false => rfl
  | true =>
    exfalso
    rcases (iaq_strings_spec cfg out).mp hb with ⟨hA, _⟩ | ⟨hB, _⟩
    · exact h1 hA
    · rcases hB with hB1 | hB2 | hB3
      · exact hp1 hB1
      · exact hp2 hB2
      · exact hp2
          ((by decide : "administratively down".data <:+: "is administratively down".data).trans hB3)

/-- The `interface <name>` line of a batch only selects the interface:
it changes no modelled state, whatever the name is. -/
theorem applyConfigCmd_interface (st : IfaceState) (x : String) :
    applyConfigCmd st ("interface " ++ x) = st := by
  have hne1 : ¬ ("interface " ++ x) = "shutdown" := by
    intro h
    have h1 : ("interface " ++ x).data.take 1 = "shutdown".data.take 1 := by rw [h]
    rw [String.data_append, List.take_append_of_le_length (by decide)] at h1
    exact absurd h1 (by decide)
  have hne2 : ¬ ("interface " ++ x) = "no shutdown" := by
    intro h
    have h1 : ("interface " ++ x).data.take 1 = "no shutdown".data.take 1 := by rw [h]
    rw [String.data_append, List.take_append_of_le_length (by decide)] at h1
    exact absurd h1 (by decide)
  have hne3 : ¬ ("description ".data.isPrefixOf ("interface " ++ x).data = true) := by
    intro hb
    have hp := (List.isPrefixOf_iff_prefix.mp hb).take 1
    rw [String.data_append, List.take_append_of_le_length (by decide)] at hp
    exact absurd hp (by decide)
  unfold applyConfigCmd
  rw [if_neg hne1, if_neg hne2, if_neg hne3]

theorem applyConfigCmd_shutdown (st : IfaceState) :
    applyConfigCmd st "shutdown" = { st with adminDown := true } := by
  unfold applyConfigCmd
  rw [if_pos rfl]

theorem applyConfigCmd_no_shutdown (st : IfaceState) :
    applyConfigCmd st "no shutdown" = { st with adminDown := false } := by
  unfold applyConfigCmd
  rw [if_neg (by decide), if_pos rfl]

theorem applyConfigCmd_descr (st : IfaceState) :
    applyConfigCmd st ("description " ++ sentinelTag) = { st with descr := sentinelTag } := by
  unfold applyConfigCmd
  rw [if_neg (by decide), if_neg (by decide), if_pos (by decide)]
  have h : ({ data := List.drop 12 ("description " ++ sentinelTag).data } : String) = sentinelTag := by
    decide
  rw [h]

/-- Net effect of the quarantine batch on the device state. -/
theorem quarantine_side_state (device interface : String) (st : IfaceState) :
    quarantine_side device interface st = ⟨true, sentinelTag⟩ := by
  show List.foldl applyConfigCmd st (quarantineCmds interface) = _
  unfold quarantineCmds
  rw [List.foldl_cons, applyConfigCmd_interface, List.foldl_cons, applyConfigCmd_shutdown,
    List.foldl_cons, applyConfigCmd_descr, List.foldl_nil]

/-- Net effect of the restore batch on the device state: the description
is left untouched. -/
theorem restore_side_state (device interface : String) (st : IfaceState) :
    restore_side device interface st = ⟨false, st.descr⟩ := by
  show List.foldl applyConfigCmd st (restoreCmds interface) = _
  unfold restoreCmds
  rw [List.foldl_cons, applyConfigCmd_interface, List.foldl_cons, applyConfigCmd_no_shutdown,
    List.foldl_cons, applyConfigCmd_no_shutdown, List.foldl_nil]

/-- Claim C6: the quarantine mutator always leaves the interface
administratively down with the sentinel description, and its single
command batch carries the disable directive and the sentinel description
together. -/
theorem quarantine_side_writes_state_and_tag (device interface : String) (st : IfaceState) :
    (quarantine_side device interface st).adminDown = true ∧
    (quarantine_side device interface st).descr = sentinelTag ∧
    "shutdown" ∈ quarantineCmds interface ∧
    ("description " ++ sentinelTag) ∈ quarantineCmds interface := by
  rw [quarantine_side_state]
  exact ⟨rfl, rfl, by simp [quarantineCmds], by simp [quarantineCmds]⟩

theorem lower_showRunningConfig_quarantined (f : String) :
    (lowerStr (showRunningConfig f ⟨true, sentinelTag⟩)).data
      = "interface ".data ++ (f.data.map lowerChar
          ++ "\n   description quarantined_by_prefect\n   shutdown\n".data) := by
  show (showRunningConfig f ⟨true, sentinelTag⟩).data.map lowerChar = _
  simp only [showRunningConfig, String.data_append, List.map_append, List.append_assoc]
  congr 1

theorem lower_showRunningConfig_restored (f : String) :
    (lowerStr (showRunningConfig f ⟨false, sentinelTag⟩)).data
      = "interface ".data ++ (f.data.map lowerChar
          ++ "\n   description quarantined_by_prefect\n".data) := by
  show (showRunningConfig f ⟨false, sentinelTag⟩).data.map lowerChar = _
  simp only [showRunningConfig, String.data_append, List.map_append, List.append_assoc]
  congr 1

theorem lower_showInterface_restored (f : String) :
    (lowerStr (showInterface f ⟨false, sentinelTag⟩)).data
      = f.data.map lowerChar
          ++ " is up, line protocol is up (connected)\n  description: quarantined_by_prefect\n".data := by
  show (showInterface f ⟨false, sentinelTag⟩).data.map lowerChar = _
  simp only [showInterface, String.data_append, List.map_append, List.append_assoc]
  congr 1

theorem restore_after_quarantine_state (device interface : String) (st : IfaceState) :
    restore_side device interface (quarantine_side device interface st)
      = ⟨false, sentinelTag⟩ := by
  rw [quarantine_side_state, restore_side_state]

set_option maxRecDepth 8192 in
/-- Claim C1: for every link, the quarantine check reports true right
after the quarantine mutator ran, and false right after the restore
mutator ran on the quarantined link (no concurrent mutation; the
canonical interface name is assumed not to contain the shutdown
directive or an admin-down phrase as a substring, which holds for every
real interface name). -/
theorem is_quarantined_after_quarantine_restore (device interface : String) (st : IfaceState)
    (h1 : ¬ "shutdown".data <:+: (lowerStr (canon_iface interface)).data)
    (h2 : ¬ "administratively down".data <:+: (lowerStr (canon_iface interface)).data)
    (h3 : ¬ "admin state is down".data <:+: (lowerStr (canon_iface interface)).data) :
    is_already_quarantined device interface (quarantine_side device interface st) = true ∧
    is_already_quarantined device interface
      (restore_side device interface (quarantine_side device interface st)) = false := by
  rw [restore_after_quarantine_state, quarantine_side_state]
  constructor
  · apply iaq_strings_true_of_cfg
    · rw [lower_showRunningConfig_quarantined]
      exact infix_of_append_right _ (infix_of_append_right _ (by decide))
    · rw [lower_showRunningConfig_quarantined]
      exact infix_of_append_right _ (infix_of_append_right _ (by decide))
  · apply iaq_strings_false
    · rw [lower_showRunningConfig_restored]
      refine not_infix_append_of_no_take (by decide) ?_ (by decide)
      exact not_infix_append_of_no_drop h1 (by decide) (by decide)
    · rw [lower_showInterface_restored]
      exact not_infix_append_of_no_drop h3 (by decide) (by decide)
    · rw [lower_showInterface_restored]
      exact not_infix_append_of_no_drop h2 (by decide) (by decide)

/-- Closed instance of claim C1 at a concrete link. -/
theorem is_quarantined_after_quarantine_restore_witness :
    is_already_quarantined "ceos-01" "Ethernet2"
        (quarantine_side "ceos-01" "Ethernet2" ⟨false, ""⟩) = true ∧
    is_already_quarantined "ceos-01" "Ethernet2"
        (restore_side "ceos-01" "Ethernet2"
          (quarantine_side "ceos-01" "Ethernet2" ⟨false, ""⟩)) = false :=
  is_quarantined_after_quarantine_restore "ceos-01" "Ethernet2" ⟨false, ""⟩
    (by decide) (by decide) (by decide)

/- ### Polling loop and flow traces -/

/-- One iteration structure of `wait_until_alert_inactive`
(source lines 435-460): while the clock is before the deadline, poll the
alert state; return true at the first inactive observation, sleep
`poll_s` otherwise; return false when the deadline passes. Time is the
number of elapsed seconds; `fuel` bounds the iteration count (the real
loop strictly advances the clock every iteration). -/
def waitLoop (activeAt : Nat → Bool) (deadline poll_s : Nat) : Nat → Nat → Bool
  | _, 0 => false
  | t, fuel + 1 =>
    if t < deadline then
      (if activeAt t then waitLoop activeAt deadline poll_s (t + poll_s) fuel else true)
    else false

/-- `wait_until_alert_inactive(alertname, device, interface, timeout_s, poll_s)`
with the clock starting at 0 relative to the call. -/
def wait_until_alert_inactive (activeAt : Nat → Bool) (timeout_s poll_s : Nat) : Bool :=
  waitLoop activeAt timeout_s poll_s 0 (timeout_s + 1)

theorem waitLoop_true_inactive {activeAt : Nat → Bool} {deadline poll_s : Nat} :
    ∀ fuel t, waitLoop activeAt deadline poll_s t fuel = true →
      ∃ u, t ≤ u ∧ u < deadline ∧ activeAt u = false := by
  intro fuel
  induction fuel with
  | zero => intro t h; simp [waitLoop] at h
  | succ m ih =>
    intro t h
    rw [waitLoop] at h
    by_cases ht : t < deadline
    · rw [if_pos ht] at h
      by_cases ha : activeAt t
      · rw [if_pos ha] at h
        obtain ⟨u, hu1, hu2, hu3⟩ := ih (t + poll_s) h
        exact ⟨u, by omega, hu2, hu3⟩
      · exact ⟨t, Nat.le_refl t, ht, by simpa using ha⟩
    · rw [if_neg ht] at h
      exact absurd h (by simp)

/-- External actions a flow run can perform, in program order. -/
inductive Action where
  | checkQuarantined (device interface : String)
  | sotPatch (interfaceId status : String)
  | alertCheck (alertname device interface : String)
  | lldpQuery (device interface : String)
  | deviceConfig (device : String) (cmds : List String)
  | silenceCreate (device interface : String) (minutes : Nat)
  | silenceDelete (silenceId : String)
  | silenceExpire (device interface : String)
  | lokiQuery (device interface : String)
  | acquireLimit (limitName : String)
  | artifact (parts : List String)
deriving DecidableEq, Repr

/-- Results of the external calls a flow run makes: the quarantine-state
read, the Alertmanager freshness check, the LLDP peer discovery, the id
returned by silence creation (the empty string models a missing, falsy
id), and the Alertmanager alert state over time for the polling loop. -/
structure Env where
  alreadyQuarantined : Bool
  alertActive : Bool
  lldpPeer : Option (String × String)
  silenceId : String
  activeAt : Nat → Bool

/-- `quarantine_link_flow` (source lines 550-635) as the list of external
actions it performs given the environment: idempotency skip, freshness
skip, or the full mutate / source-of-truth / silence / wait / cleanup
sequence. The commented-out concurrency guard of the source acquires no
limit, so no `acquireLimit` action is ever emitted. -/
def quarantine_link_flow (env : Env) (device interface : String)
    (local_interface_id : Option String) (alertname status : String) : List Action :=
  let interface := canon_iface interface
  if env.alreadyQuarantined then
    Action.checkQuarantined device interface ::
      ((match local_interface_id with
        | some iid => [Action.sotPatch iid "quarantined"]
        | none => [])
        ++ [Action.artifact ["quarantine-skip", device, interface]])
  else
    Action.checkQuarantined device interface ::
      Action.alertCheck "PeerInterfaceFlapping" device interface ::
      (if env.alertActive then
        Action.lldpQuery device interface ::
          Action.deviceConfig device (quarantineCmds interface) ::
          ((match local_interface_id with
            | some iid => [Action.sotPatch iid "quarantined"]
            | none => [])
            ++ [Action.silenceCreate device interface 20]
            ++ (if wait_until_alert_inactive env.activeAt 120 5 = true ∧ env.silenceId ≠ ""
                then [Action.silenceDelete env.silenceId] else [])
            ++ [Action.artifact ["quarantine", device, interface]])
      else [Action.artifact ["quarantine-stale", device, interface]])

/-- `restore_link_flow` (source lines 638-688) as the list of external
actions it performs given the environment. -/
def restore_link_flow (env : Env) (device interface : String)
    (local_interface_id : Option String) (alertname status : String) : List Action :=
  let interface := canon_iface interface
  if env.alreadyQuarantined then
    Action.checkQuarantined device interface ::
      Action.lokiQuery device interface ::
      Action.deviceConfig device (restoreCmds interface) ::
      ((match local_interface_id with
        | some iid => [Action.sotPatch iid "active"]
        | none => [])
        ++ [Action.silenceExpire device interface,
            Action.artifact ["restore", device, interface]])
  else
    [Action.checkQuarantined device interface,
     Action.artifact ["restore-skip", device, interface]]

/-- An action that mutates device configuration. -/
def isDeviceMutation : Action → Bool
  | Action.deviceConfig _ _ => true
  | _ => false

/-- An action that creates an Alertmanager silence. -/
def isSilenceCreate : Action → Bool
  | Action.silenceCreate _ _ _ => true
  | _ => false

/-- An action that acquires a named concurrency limit. -/
def isAcquireLimit : Action → Bool
  | Action.acquireLimit _ => true
  | _ => false

/-- Claim C3: when the idempotency check reports the link already
quarantined, the quarantine workflow performs no device mutation and
creates no silence; it still patches the source-of-truth record to
`quarantined` when an external record id is supplied. -/
theorem quarantine_flow_skip_idempotent (env : Env) (device interface : String)
    (iid : Option String) (alertname status : String)
    (h : env.alreadyQuarantined = true) :
    ((quarantine_link_flow env device interface iid alertname status).countP isDeviceMutation = 0) ∧
    ((quarantine_link_flow env device interface iid alertname status).countP isSilenceCreate = 0) ∧
    (∀ s, iid = some s →
      Action.sotPatch s "quarantined"
        ∈ quarantine_link_flow env device interface iid alertname status) := by
  cases iid <;>
    simp [quarantine_link_flow, h, List.countP_cons, List.countP_append,
      isDeviceMutation, isSilenceCreate]

/-- Closed instance of claim C3. -/
theorem quarantine_flow_skip_idempotent_witness :
    ((quarantine_link_flow ⟨true, true, none, "s1", fun _ => true⟩ "ceos-01" "Ethernet2"
        (some "iid-7") "PeerInterfaceFlapping" "firing").countP isDeviceMutation = 0) ∧
    ((quarantine_link_flow ⟨true, true, none, "s1", fun _ => true⟩ "ceos-01" "Ethernet2"
        (some "iid-7") "PeerInterfaceFlapping" "firing").countP isSilenceCreate = 0) ∧
    Action.sotPatch "iid-7" "quarantined"
      ∈ quarantine_link_flow ⟨true, true, none, "s1", fun _ => true⟩ "ceos-01" "Ethernet2"
          (some "iid-7") "PeerInterfaceFlapping" "firing" := by
  obtain ⟨a, b, c⟩ := quarantine_flow_skip_idempotent ⟨true, true, none, "s1", fun _ => true⟩
    "ceos-01" "Ethernet2" (some "iid-7") "PeerInterfaceFlapping" "firing" rfl
  exact ⟨a, b, c "iid-7" rfl⟩

/-- Claim C4: past the idempotency check, a failed freshness check
(alert no longer active) means the workflow ends before any device
mutation. -/
theorem quarantine_flow_stale_no_mutation (env : Env) (device interface : String)
    (iid : Option String) (alertname status : String)
    (h1 : env.alreadyQuarantined = false) (h2 : env.alertActive = false) :
    (quarantine_link_flow env device interface iid alertname status).countP isDeviceMutation
      = 0 := by
  simp [quarantine_link_flow, h1, h2, List.countP_cons, isDeviceMutation]

/-- Closed instance of claim C4. -/
theorem quarantine_flow_stale_no_mutation_witness :
    (quarantine_link_flow ⟨false, false, none, "s1", fun _ => true⟩ "ceos-01" "Ethernet2"
        none "PeerInterfaceFlapping" "firing").countP isDeviceMutation = 0 :=
  quarantine_flow_stale_no_mutation ⟨false, false, none, "s1", fun _ => true⟩
    "ceos-01" "Ethernet2" none "PeerInterfaceFlapping" "firing" rfl rfl

/-- Claim C5: the restore workflow on a link not recognized as
quarantined performs no device mutation and ends as the skip trace. -/
theorem restore_flow_skip_no_mutation (env : Env) (device interface : String)
    (iid : Option String) (alertname status : String)
    (h : env.alreadyQuarantined = false) :
    ((restore_link_flow env device interface iid alertname status).countP isDeviceMutation = 0) ∧
    restore_link_flow env device interface iid alertname status
      = [Action.checkQuarantined device (canon_iface interface),
         Action.artifact ["restore-skip", device, canon_iface interface]] := by
  constructor
  · simp [restore_link_flow, h, List.countP_cons, isDeviceMutation]
  · simp [restore_link_flow, h]

/-- Closed instance of claim C5. -/
theorem restore_flow_skip_no_mutation_witness :
    ((restore_link_flow ⟨false, true, none, "s1", fun _ => true⟩ "ceos-01" "Ethernet2"
        none "PeerInterfaceFlapping" "resolved").countP isDeviceMutation = 0) ∧
    restore_link_flow ⟨false, true, none, "s1", fun _ => true⟩ "ceos-01" "Ethernet2"
        none "PeerInterfaceFlapping" "resolved"
      = [Action.checkQuarantined "ceos-01" (canon_iface "Ethernet2"),
         Action.artifact ["restore-skip", "ceos-01", canon_iface "Ethernet2"]] :=
  restore_flow_skip_no_mutation ⟨false, true, none, "s1", fun _ => true⟩
    "ceos-01" "Ethernet2" none "PeerInterfaceFlapping" "resolved" rfl

/-- Claim C7: the polling loop returns true only when an inactive
observation happened before the deadline; on the main quarantine path
a true result (with a usable silence id) leads to the silence being
deleted by id, and a false result leaves every silence in place. -/
theorem wait_inactive_silence_cleanup (env : Env) (device interface : String)
    (iid : Option String) (alertname status : String)
    (h1 : env.alreadyQuarantined = false) (h2 : env.alertActive = true) :
    (∀ timeout poll : Nat, wait_until_alert_inactive env.activeAt timeout poll = true →
        ∃ u, u < timeout ∧ env.activeAt u = false) ∧
    (wait_until_alert_inactive env.activeAt 120 5 = true → env.silenceId ≠ "" →
        Action.silenceDelete env.silenceId
          ∈ quarantine_link_flow env device interface iid alertname status) ∧
    (wait_until_alert_inactive env.activeAt 120 5 = false →
        ∀ s, Action.silenceDelete s
          ∉ quarantine_link_flow env device interface iid alertname status) := by
  refine ⟨?_, ?_, ?_⟩
  · intro timeout poll hw
    obtain ⟨u, _, hu2, hu3⟩ := waitLoop_true_inactive (timeout + 1) 0 hw
    exact ⟨u, hu2, hu3⟩
  · intro hw hs
    cases iid <;> simp [quarantine_link_flow, h1, h2, hw, hs]
  · intro hw s
    cases iid <;> simp [quarantine_link_flow, h1, h2, hw]

/-- Closed instance of claim C7 on the true branch. -/
theorem wait_inactive_silence_cleanup_witness :
    (∃ u, u < 120 ∧ (fun t : Nat => decide (t = 0)) u = false) ∧
    Action.silenceDelete "sid-1"
      ∈ quarantine_link_flow ⟨false, true, none, "sid-1", fun t => decide (t = 0)⟩
          "ceos-01" "Ethernet2" none "PeerInterfaceFlapping" "firing" := by
  obtain ⟨c1, c2, _⟩ := wait_inactive_silence_cleanup
    ⟨false, true, none, "sid-1", fun t => decide (t = 0)⟩
    "ceos-01" "Ethernet2" none "PeerInterfaceFlapping" "firing" rfl rfl
  have hw : wait_until_alert_inactive (fun t : Nat => decide (t = 0)) 120 5 = true := by decide
  exact ⟨c1 120 5 hw, c2 hw (by decide)⟩

/-- Counterexample for claim C9: the concurrency guard of the source is
commented out, so a run of either workflow acquires no named concurrency
limit at all — same-link invocations are not serialized by the flows. -/
theorem concurrency_limit_never_acquired_cx :
    ((quarantine_link_flow ⟨false, true, none, "s1", fun _ => false⟩ "ceos-01" "Ethernet49/1"
        (some "iid-1") "PeerInterfaceFlapping" "firing").all
        (fun a => !(isAcquireLimit a)) = true) ∧
    ((restore_link_flow ⟨true, true, none, "s1", fun _ => false⟩ "ceos-01" "Ethernet49/1"
        (some "iid-1") "PeerInterfaceFlapping" "resolved").all
        (fun a => !(isAcquireLimit a)) = true) := by
  decide

/-- Claim C9 (amended): the per-link limit name helper exists, but no
run of the quarantine or restore workflow acquires any concurrency
limit (the guard is commented out in the source), for any environment
and any link. -/
theorem concurrency_limit_unused (env : Env) (device interface : String)
    (iid : Option String) (alertname status : String) :
    ((quarantine_link_flow env device interface iid alertname status).all
        (fun a => !(isAcquireLimit a)) = true) ∧
    ((restore_link_flow env device interface iid alertname status).all
        (fun a => !(isAcquireLimit a)) = true) := by
  constructor <;>
  · cases hq : env.alreadyQuarantined <;> cases ha : env.alertActive <;> cases iid <;>
      by_cases hw : wait_until_alert_inactive env.activeAt 120 5 = true ∧ env.silenceId ≠ "" <;>
      simp [quarantine_link_flow, restore_link_flow, hq, ha, hw, isAcquireLimit]

/- ### Alert receiver dispatch -/

/-- One alert of an alert group: the labels the dispatcher reads. -/
structure AlertInfo where
  device : String
  interface : String
deriving DecidableEq, Repr

/-- A workflow invocation made by the dispatcher. -/
inductive FlowCall where
  | quarantine (device interface alertname status : String)
  | restore (device interface alertname status : String)
deriving DecidableEq, Repr

/-- `alert_receiver` (source lines 776-826): for a `PeerInterfaceFlapping`
group, invoke the quarantine workflow per alert when the group status is
`firing`, the restore workflow for any other status; other alert names
trigger nothing. -/
def alert_receiver (status alertname : String) (alerts : List AlertInfo) : List FlowCall :=
  if alertname = "PeerInterfaceFlapping" then
    alerts.map (fun a =>
      if status = "firing" then
        FlowCall.quarantine a.device (canon_iface a.interface) alertname status
      else
        FlowCall.restore a.device (canon_iface a.interface) alertname status)
  else []

/-- Claim C10: for a `PeerInterfaceFlapping` group, each alert's link
gets the quarantine workflow exactly when the group status is `firing`,
and the restore workflow exactly when the status is anything else. -/
theorem alert_receiver_dispatch (status : String) (alerts : List AlertInfo) (a : AlertInfo)
    (ha : a ∈ alerts) :
    (FlowCall.quarantine a.device (canon_iface a.interface) "PeerInterfaceFlapping" status
        ∈ alert_receiver status "PeerInterfaceFlapping" alerts ↔ status = "firing") ∧
    (FlowCall.restore a.device (canon_iface a.interface) "PeerInterfaceFlapping" status
        ∈ alert_receiver status "PeerInterfaceFlapping" alerts ↔ status ≠ "firing") := by
  unfold alert_receiver
  rw [if_pos rfl]
  by_cases hs : status = "firing"
  · subst hs
    constructor
    · constructor
      · intro _; rfl
      · intro _
        simpa using List.mem_map_of_mem
          (fun b : AlertInfo =>
            if ("firing" : String) = "firing" then
              FlowCall.quarantine b.device (canon_iface b.interface) "PeerInterfaceFlapping" "firing"
            else
              FlowCall.restore b.device (canon_iface b.interface) "PeerInterfaceFlapping" "firing")
          ha
    · constructor
      · intro hmem
        exfalso
        rcases List.mem_map.mp hmem with ⟨b, _, heq⟩
        simp at heq
      · intro hne; exact absurd rfl hne
  · constructor
    · constructor
      · intro hmem
        exfalso
        rcases List.mem_map.mp hmem with ⟨b, _, heq⟩
        rw [if_neg hs] at heq
        exact FlowCall.noConfusion heq
      · intro h; exact absurd h hs
    · constructor
      · intro _; exact hs
      · intro _
        have hmem := List.mem_map_of_mem
          (fun b : AlertInfo =>
            if status = "firing" then
              FlowCall.quarantine b.device (canon_iface b.interface) "PeerInterfaceFlapping" status
            else
              FlowCall.restore b.device (canon_iface b.interface) "PeerInterfaceFlapping" status)
          ha
        simp only [if_neg hs] at hmem ⊢
        exact hmem

/-- Closed instance of claim C10. -/
theorem alert_receiver_dispatch_witness :
    (FlowCall.quarantine "ceos-01" (canon_iface "Ethernet2") "PeerInterfaceFlapping" "firing"
        ∈ alert_receiver "firing" "PeerInterfaceFlapping"
            [AlertInfo.mk "ceos-01" "Ethernet2"] ↔ ("firing" : String) = "firing") ∧
    (FlowCall.restore "ceos-01" (canon_iface "Ethernet2") "PeerInterfaceFlapping" "firing"
        ∈ alert_receiver "firing" "PeerInterfaceFlapping"
            [AlertInfo.mk "ceos-01" "Ethernet2"] ↔ ("firing" : String) ≠ "firing") :=
  alert_receiver_dispatch "firing" [AlertInfo.mk "ceos-01" "Ethernet2"]
    (AlertInfo.mk "ceos-01" "Ethernet2") (by decide)

end EventAutomation
